import Mathlib

/-!
Shallow embedding of the ads123x bit-banged ADC driver (src/lib.rs) and
verification of the specification claims about it.

Conventions:
* a digital level is a `Bool`, `true` = high, `false` = low;
* Rust `u32` values are natural numbers, with `% 2 ^ 32` where wrapping
  matters; the returned `i32` is modelled as a mathematical integer
  (every value produced here fits in 32 bits);
* the data-line levels observed by an acquisition are passed in as a list,
  first element = first sampled level.
-/

/-- Embedding of `i24_to_i32` (src/lib.rs lines 221-233): mask the accumulator
to its low 24 bits and sign-extend at bit 23.  `16777216` is the literal
`1 << 24` of the source; the masked value is below `2 ^ 24`, so the Rust
`as i32` cast and the subtraction are exact. -/
def i24_to_i32 (value : Nat) : Int :=
  let masked_value := value &&& 0xFFFFFF
  if masked_value &&& 0x800000 ≠ 0 then
    (masked_value : Int) - 16777216
  else
    (masked_value : Int)

/-- One iteration of the acquisition loop body (src/lib.rs lines 117-118 and
203-204): OR the sampled level into the accumulator, then shift left, on a
wrapping 32-bit word. -/
def shiftStep (data : Nat) (bit : Bool) : Nat :=
  ((data ||| bit.toNat) <<< 1) % 2 ^ 32

/-- The accumulator produced by the 24-sample loop of `read_internal_blocking`
(src/lib.rs lines 111-123) and `read_internal` (lines 197-209): `data` starts
at 0 and the loop body runs once per sampled data-line level. -/
def shiftIn (bits : List Bool) : Nat :=
  bits.foldl shiftStep 0

/-- The value returned by `read_internal_blocking` / `read_internal` when the
levels sampled during the acquisition loop are `bits`. -/
def readValue (bits : List Bool) : Int :=
  i24_to_i32 (shiftIn bits)

/-- The natural number denoted by a bit sequence, most-significant bit
first. -/
def msbFirstNat (bits : List Bool) : Nat :=
  bits.foldl (fun acc b => 2 * acc + b.toNat) 0

/-- The value the spec prescribes for an acquisition: the twos-complement
reading of the 24 sampled levels, first sample = sign bit (bit 23), last
sample = bit 0, widened to a signed integer preserving sign.  This follows
the words of the spec (section 3, "Raw sample", and section 4.2 step 5), for
comparison with `readValue`, which is the embedding of the source. -/
def specMsbTwosComplement (bits : List Bool) : Int :=
  let v := msbFirstNat bits
  if 2 ^ 23 ≤ v then (v : Int) - 2 ^ 24 else (v : Int)

/-- Arithmetic form of `i24_to_i32`: the bitwise mask is reduction modulo
`2 ^ 24` and the sign test is comparison with `2 ^ 23`. -/
theorem i24_to_i32_eq (v : Nat) :
    i24_to_i32 v =
      if 2 ^ 23 ≤ v % 2 ^ 24 then ((v % 2 ^ 24 : Nat) : Int) - 2 ^ 24
      else ((v % 2 ^ 24 : Nat) : Int) := by
  have hmask : v &&& 0xFFFFFF = v % 2 ^ 24 := by
    have h := Nat.and_pow_two_sub_one_eq_mod v 24
    norm_num at h
    exact h
  have hlt : v % 2 ^ 24 < 2 ^ 24 := Nat.mod_lt _ (by norm_num)
  have hand : (v % 2 ^ 24) &&& 0x800000 = ((v % 2 ^ 24).testBit 23).toNat * 2 ^ 23 := by
    have h := Nat.and_two_pow (v % 2 ^ 24) 23
    norm_num at h ⊢
    exact h
  have htb : (v % 2 ^ 24).testBit 23 = decide ((v % 2 ^ 24) / 2 ^ 23 % 2 = 1) :=
    Nat.testBit_to_div_mod
  have hiff : ((v % 2 ^ 24) &&& 0x800000 ≠ 0) ↔ 2 ^ 23 ≤ v % 2 ^ 24 := by
    rw [hand, htb]
    rcases Nat.lt_or_ge (v % 2 ^ 24) (2 ^ 23) with hc | hc
    · have : (v % 2 ^ 24) / 2 ^ 23 % 2 = 0 := by omega
      simp [this]
      omega
    · have : (v % 2 ^ 24) / 2 ^ 23 % 2 = 1 := by omega
      simp [this]
      omega
  unfold i24_to_i32
  rw [hmask]
  by_cases hc : 2 ^ 23 ≤ v % 2 ^ 24
  · rw [if_pos (hiff.mpr hc), if_pos hc]
    norm_num
  · rw [if_neg (fun h => hc (hiff.mp h)), if_neg hc]

/-- C6: `i24_to_i32` returns `v & 0xFFFFFF` when bit 23 of `v` is clear and
`(v & 0xFFFFFF) - 16777216` when bit 23 is set (so `0x000001 ↦ 1`,
`0x7FFFFF ↦ 8388607`, `0x800000 ↦ -8388608`, `0xFFFFFF ↦ -1`), and the result
always lies in `-8388608 … 8388607`. -/
theorem i24_to_i32_sign_extension (v : Nat) :
    i24_to_i32 v =
      (if v.testBit 23 then ((v % 2 ^ 24 : Nat) : Int) - 16777216
       else ((v % 2 ^ 24 : Nat) : Int)) ∧
    -8388608 ≤ i24_to_i32 v ∧ i24_to_i32 v ≤ 8388607 ∧
    i24_to_i32 0x000001 = 1 ∧ i24_to_i32 0x7FFFFF = 8388607 ∧
    i24_to_i32 0x800000 = -8388608 ∧ i24_to_i32 0xFFFFFF = -1 := by
  have hlt : v % 2 ^ 24 < 2 ^ 24 := Nat.mod_lt _ (by norm_num)
  have htb : v.testBit 23 = (v % 2 ^ 24).testBit 23 := by
    rw [Nat.testBit_to_div_mod, Nat.testBit_to_div_mod]
    exact decide_eq_decide.mpr (by omega)
  have htb2 : (v % 2 ^ 24).testBit 23 = decide ((v % 2 ^ 24) / 2 ^ 23 % 2 = 1) :=
    Nat.testBit_to_div_mod
  rw [i24_to_i32_eq v]
  refine ⟨?_, ?_, ?_, by decide, by decide, by decide, by decide⟩
  · rw [htb, htb2]
    rcases Nat.lt_or_ge (v % 2 ^ 24) (2 ^ 23) with hc | hc
    · have h0 : (v % 2 ^ 24) / 2 ^ 23 % 2 = 0 := by omega
      rw [if_neg (by omega), h0]
      norm_num
    · have h1 : (v % 2 ^ 24) / 2 ^ 23 % 2 = 1 := by omega
      rw [if_pos hc, h1]
      norm_num
  · split <;> omega
  · split <;> omega

/-- C1: evaluation of the accumulator construction at the failing input.  When
the 24 sampled levels are high followed by 23 lows, the source returns 0: the
loop ORs each sample into bit 0 and then shifts left, so after 24 iterations
the first sample sits at bit 24 and is removed by the 24-bit mask, while the
spec value (first sample = sign bit 23) is `-8388608`. -/
theorem readValue_drops_first_sampled_bit :
    readValue (true :: List.replicate 23 false) = 0 ∧
    specMsbTwosComplement (true :: List.replicate 23 false) = -8388608 := by
  constructor
  · decide
  · decide

theorem shiftStep_mod_two (data : Nat) (bit : Bool) : shiftStep data bit % 2 = 0 := by
  unfold shiftStep
  rw [Nat.shiftLeft_eq]
  have h : (data ||| bit.toNat) * 2 ^ 1 = (data ||| bit.toNat) * 2 := by ring
  rw [h]
  omega

theorem foldl_shiftStep_mod_two (bits : List Bool) (acc : Nat) (h : bits ≠ []) :
    (bits.foldl shiftStep acc) % 2 = 0 := by
  induction bits generalizing acc with
  | nil => exact absurd rfl h
  | cons b rest ih =>
    rw [List.foldl_cons]
    cases rest with
    | nil => simpa using shiftStep_mod_two acc b
    | cons c rest2 => exact ih (shiftStep acc b) (by simp)

/-- C10: for every sequence of 24 sampled data-line levels the value returned
by `read_internal_blocking` / `read_internal` is even: the loop shifts left
after ORing the sample into bit 0, so bit 0 of the accumulator is clear after
the last iteration, and both branches of `i24_to_i32` preserve the low bit. -/
theorem readValue_even (bits : List Bool) (h : bits.length = 24) :
    readValue bits % 2 = 0 := by
  have hne : bits ≠ [] := by
    intro hnil
    rw [hnil] at h
    simp at h
  have heven : shiftIn bits % 2 = 0 := foldl_shiftStep_mod_two bits 0 hne
  unfold readValue
  rw [i24_to_i32_eq]
  have hm : shiftIn bits % 2 ^ 24 % 2 = 0 := by omega
  split <;> omega

/-- Witness for `readValue_even` at a concrete 24-sample input. -/
theorem readValue_even_witness :
    (List.replicate 24 true).length = 24 ∧ readValue (List.replicate 24 true) % 2 = 0 :=
  ⟨by decide, readValue_even (List.replicate 24 true) (by decide)⟩

/-- One pin-level event of the bit-banged protocol.  Levels are `Bool`
(`true` = high).  `waitDout l` is a ready-line wait point that completes when
the data line is observed at level `l`: for the blocking code this is the exit
condition of its polling loop (`while dout.is_high() {}` completes at level
low), for the suspending code it is the awaited `Wait` condition
(`wait_for_low` completes at low, `wait_for_high` at high).  `sampleDout l`
is a data-line read whose level is shifted into the accumulator. -/
inductive Ev where
  | setSclk (level : Bool)
  | setPwdn (level : Bool)
  | waitDout (level : Bool)
  | sampleDout (level : Bool)
  | delayNs (n : Nat)
  deriving DecidableEq

/-- The per-bit cycle of the acquisition loop, identical in
`read_internal_blocking` (src/lib.rs lines 113-123) and `read_internal`
(lines 199-209): clock high, 50ns, sample, 50ns, clock low, 100ns. -/
def bitCycle (b : Bool) : List Ev :=
  [.setSclk true, .delayNs 50, .sampleDout b, .delayNs 50, .setSclk false, .delayNs 100]

/-- Event trace of `read_internal_blocking` (src/lib.rs lines 106-132) when
the acquisition loop samples `bits`: clock low, poll until the data line is
low, 24 bit cycles, then the 25th pulse forcing DRDY high. -/
def readInternalBlockingTrace (bits : List Bool) : List Ev :=
  [.setSclk false, .waitDout false] ++ (bits.map bitCycle).flatten ++
    [.setSclk true, .delayNs 100, .setSclk false, .delayNs 100]

/-- Event trace of the suspending `read_internal` (src/lib.rs lines 192-218):
clock low, `wait_for_low`, 24 bit cycles, then the 25th pulse. -/
def readInternalAsyncTrace (bits : List Bool) : List Ev :=
  [.setSclk false, .waitDout false] ++ (bits.map bitCycle).flatten ++
    [.setSclk true, .delayNs 100, .setSclk false, .delayNs 100]

/-- Event trace of `reset_blocking` (src/lib.rs lines 59-73); microsecond
delays are recorded in nanoseconds. -/
def resetBlockingTrace : List Ev :=
  [.setPwdn false, .delayNs 50000, .setPwdn true, .delayNs 26000,
   .setPwdn false, .delayNs 26000, .setPwdn true]

/-- Event trace of the suspending `reset` (src/lib.rs lines 147-161). -/
def resetAsyncTrace : List Ev :=
  [.setPwdn false, .delayNs 50000, .setPwdn true, .delayNs 26000,
   .setPwdn false, .delayNs 26000, .setPwdn true]

/-- Event trace of `calibrate_offset_blocking` (src/lib.rs lines 77-88): one
full acquisition, the 26th pulse, then poll `while dout.is_high() {}`, which
completes when the data line is observed low. -/
def calibrateOffsetBlockingTrace (bits : List Bool) : List Ev :=
  readInternalBlockingTrace bits ++
    [.setSclk true, .delayNs 100, .setSclk false, .waitDout false]

/-- Event trace of the suspending `calibrate_offset` (src/lib.rs lines
165-176): one full acquisition, the 26th pulse, then `wait_for_high`, which
completes when the data line is observed high. -/
def calibrateOffsetAsyncTrace (bits : List Bool) : List Ev :=
  readInternalAsyncTrace bits ++
    [.setSclk true, .delayNs 100, .setSclk false, .waitDout true]

/-- Event trace of `enter_standby_blocking` (src/lib.rs lines 93-99): clock
low, poll `while dout.is_high() {}` (completes at level low), clock high. -/
def enterStandbyBlockingTrace : List Ev :=
  [.setSclk false, .waitDout false, .setSclk true]

/-- Event trace of the suspending `enter_standby` (src/lib.rs lines 181-185):
clock low, `wait_for_high` (completes at level high), clock high. -/
def enterStandbyAsyncTrace : List Ev :=
  [.setSclk false, .waitDout true, .setSclk true]

/-- Recognizer for data-line sample events. -/
def isSample : Ev → Bool
  | .sampleDout _ => true
  | _ => false

/-- C4: evaluation at the failing operations.  Read-internal and reset have
identical blocking and suspending traces, but calibrate-offset and
standby-entry do not: their suspending versions await the data line high
where the blocking versions poll until it is low. -/
theorem async_blocking_wait_divergence :
    (∀ bits : List Bool, readInternalAsyncTrace bits = readInternalBlockingTrace bits) ∧
    resetAsyncTrace = resetBlockingTrace ∧
    calibrateOffsetAsyncTrace (List.replicate 24 false) ≠
      calibrateOffsetBlockingTrace (List.replicate 24 false) ∧
    enterStandbyAsyncTrace ≠ enterStandbyBlockingTrace :=
  ⟨fun _ => rfl, rfl, by decide, by decide⟩

/-- C5: evaluation of both standby-entry implementations.  The blocking
version drives clock low, waits until the data line is observed low, then
drives clock high; the suspending version instead waits until the data line
is observed high.  Neither trace contains a data-bit sample event. -/
theorem enter_standby_wait_levels :
    enterStandbyBlockingTrace = [.setSclk false, .waitDout false, .setSclk true] ∧
    enterStandbyAsyncTrace = [.setSclk false, .waitDout true, .setSclk true] ∧
    enterStandbyBlockingTrace.all (fun e => !isSample e) = true ∧
    enterStandbyAsyncTrace.all (fun e => !isSample e) = true :=
  ⟨rfl, rfl, by decide, by decide⟩

/-- C8: both reset implementations drive the power-down line low, high, low,
high, in that order, with the 50µs stabilization delay between the first low
and the first high and the two 26µs delays around the following low, and no
other events. -/
theorem reset_pulse_sequence :
    resetBlockingTrace =
      [.setPwdn false, .delayNs 50000, .setPwdn true, .delayNs 26000,
       .setPwdn false, .delayNs 26000, .setPwdn true] ∧
    resetAsyncTrace = resetBlockingTrace :=
  ⟨rfl, rfl⟩

/-- The three-channel enumeration of the ADS1232 (src/lib.rs lines 244-254). -/
inductive ADS1232Channel where
  | AIN1
  | AIN2
  | Temp
  deriving DecidableEq

/-- The channel read-back of the ADS1232 `set_channel` (src/lib.rs lines
287-294): the old channel derived from the `is_set_high` levels of the two
select pins A0 and A1 (`true` = high). -/
def ads1232OldChannel (a0 a1 : Bool) : ADS1232Channel :=
  match a0, a1 with
  | true, false => .AIN1
  | false, false => .AIN2
  | _, true => .Temp

/-- The select-line levels driven for a requested ADS1232 channel
(src/lib.rs lines 297-301), as `(a0, a1)` with `true` = `PinState::High`. -/
def ads1232DriveLevels : ADS1232Channel → Bool × Bool
  | .AIN1 => (false, false)
  | .AIN2 => (true, false)
  | .Temp => (false, true)

/-- Result of one ADS1232 `read_blocking` (or the suspending `read`) call with
the line-level effects it performs recorded:  `a0`, `a1` are the select-line
levels afterwards, `drove` whether `set_channel` wrote the select lines,
`delayed` whether the 50µs DRDY setup delay ran, `discards` how many
acquisitions were performed and thrown away, and `acquisitions` the total
number of `read_internal` calls (the last one produces the returned value). -/
structure Read1232 where
  a0 : Bool
  a1 : Bool
  drove : Bool
  delayed : Bool
  discards : Nat
  acquisitions : Nat
  deriving DecidableEq

/-- The ADS1232 `set_channel` (src/lib.rs lines 286-308): derive the old
channel from the select-line levels, drive the new levels only when the
requested channel differs, return the old channel.  The third component
records whether the select lines were written. -/
def ads1232SetChannel (a0 a1 : Bool) (channel : ADS1232Channel) :
    (Bool × Bool) × ADS1232Channel × Bool :=
  let old := ads1232OldChannel a0 a1
  if channel != old then (ads1232DriveLevels channel, old, true)
  else ((a0, a1), old, false)

/-- The channel-logic of the ADS1232 `read_blocking` (src/lib.rs lines
322-339) and of the suspending `read` (lines 363-384), which is identical:
`set_channel`, 50µs delay when the channel changed, four discarded
acquisitions when exactly one of old and requested channel is `Temp`, then
the acquisition whose value is returned. -/
def ads1232ReadBlocking (a0 a1 : Bool) (channel : ADS1232Channel) : Read1232 :=
  let s := ads1232SetChannel a0 a1 channel
  let old := s.2.1
  let discards := if (old == .Temp) != (channel == .Temp) then 4 else 0
  { a0 := s.1.1
    a1 := s.1.2
    drove := s.2.2
    delayed := old != channel
    discards := discards
    acquisitions := discards + 1 }

/-- The four-channel enumeration of the ADS1234 (src/lib.rs lines 396-401). -/
inductive ADS1234Channel where
  | AIN1
  | AIN2
  | AIN3
  | AIN4
  deriving DecidableEq

/-- The channel read-back of the ADS1234 `set_channel` (src/lib.rs lines
431-439). -/
def ads1234OldChannel (a0 a1 : Bool) : ADS1234Channel :=
  match a0, a1 with
  | false, false => .AIN1
  | true, false => .AIN2
  | false, true => .AIN3
  | true, true => .AIN4

/-- The select-line levels driven for a requested ADS1234 channel
(src/lib.rs lines 442-447). -/
def ads1234DriveLevels : ADS1234Channel → Bool × Bool
  | .AIN1 => (false, false)
  | .AIN2 => (true, false)
  | .AIN3 => (false, true)
  | .AIN4 => (true, true)

/-- C2: evaluation at the failing input.  For the ADS1232 the drive table and
the read-back table are not mutually inverse: driving the levels for AIN1
(low, low) reads back as AIN2, and driving the levels for AIN2 (high, low)
reads back as AIN1; only Temp round-trips.  The ADS1234 mapping round-trips
on all four channels. -/
theorem ads1232_roundtrip_fails :
    ads1232OldChannel (ads1232DriveLevels .AIN1).1 (ads1232DriveLevels .AIN1).2 =
      ADS1232Channel.AIN2 ∧
    ads1232OldChannel (ads1232DriveLevels .AIN2).1 (ads1232DriveLevels .AIN2).2 =
      ADS1232Channel.AIN1 ∧
    ads1232OldChannel (ads1232DriveLevels .Temp).1 (ads1232DriveLevels .Temp).2 =
      ADS1232Channel.Temp ∧
    ads1234OldChannel (ads1234DriveLevels .AIN1).1 (ads1234DriveLevels .AIN1).2 =
      ADS1234Channel.AIN1 ∧
    ads1234OldChannel (ads1234DriveLevels .AIN2).1 (ads1234DriveLevels .AIN2).2 =
      ADS1234Channel.AIN2 ∧
    ads1234OldChannel (ads1234DriveLevels .AIN3).1 (ads1234DriveLevels .AIN3).2 =
      ADS1234Channel.AIN3 ∧
    ads1234OldChannel (ads1234DriveLevels .AIN4).1 (ads1234DriveLevels .AIN4).2 =
      ADS1234Channel.AIN4 := by
  decide

/-- C3: evaluation at the failing input.  Starting with the select lines at
the levels `set_channel` drives for AIN1 (low, low), a repeated
`read_blocking(AIN1)` re-drives both select lines and inserts the 50µs
settling delay, because the read-back derives AIN2 from (low, low); the
4-conversion discard loop is indeed not executed. -/
theorem ads1232_repeat_ain1_redrives :
    (ads1232ReadBlocking
        (ads1232ReadBlocking false false .AIN1).a0
        (ads1232ReadBlocking false false .AIN1).a1 .AIN1).drove = true ∧
    (ads1232ReadBlocking
        (ads1232ReadBlocking false false .AIN1).a0
        (ads1232ReadBlocking false false .AIN1).a1 .AIN1).delayed = true ∧
    (ads1232ReadBlocking
        (ads1232ReadBlocking false false .AIN1).a0
        (ads1232ReadBlocking false false .AIN1).a1 .AIN1).discards = 0 := by
  decide

/-- C7: starting from any select-line state, after a read of channel `p` a
subsequent read of channel `c` discards exactly 4 acquisitions when exactly
one of `p` and `c` is the temperature channel and 0 otherwise, and the
returned value comes from the acquisition after the discarded ones (the 5th,
respectively the 1st). -/
theorem ads1232_discard_policy (a0 a1 : Bool) (p c : ADS1232Channel) :
    ((ads1232ReadBlocking
        (ads1232ReadBlocking a0 a1 p).a0 (ads1232ReadBlocking a0 a1 p).a1 c).discards =
      if (p == .Temp) != (c == .Temp) then 4 else 0) ∧
    (ads1232ReadBlocking
        (ads1232ReadBlocking a0 a1 p).a0 (ads1232ReadBlocking a0 a1 p).a1 c).acquisitions =
      (ads1232ReadBlocking
        (ads1232ReadBlocking a0 a1 p).a0 (ads1232ReadBlocking a0 a1 p).a1 c).discards + 1 := by
  cases a0 <;> cases a1 <;> cases p <;> cases c <;> decide

/-- Outcome of a driver operation whose pin accesses can fail.  The source
calls `.unwrap()` on every pin access, so a failing access panics; `err`
(an error value handed back to the caller) is never produced. -/
inductive PinOutcome where
  | ok
  | err
  | panicked
  deriving DecidableEq

/-- Runs a straight-line sequence of fallible pin writes the way the source
runs them through `.unwrap()`: `env i = true` means the i-th write succeeds;
the first failing write panics, and no later write is performed.  Returns the
outcome and the list of levels actually driven. -/
def runWrites (env : Nat → Bool) : List Bool → Nat → PinOutcome × List Bool
  | [], _ => (.ok, [])
  | l :: rest, i =>
    if env i then
      let r := runWrites env rest (i + 1)
      (r.1, l :: r.2)
    else (.panicked, [])

/-- The four power-down levels driven by `reset_blocking` (src/lib.rs lines
59-73) and `reset` (lines 147-161), in order. -/
def resetWrites : List Bool := [false, true, false, true]

/-- The reset sequence with fallible pin writes: `env i` tells whether the
i-th `set_low` / `set_high` on the power-down line succeeds. -/
def resetRun (env : Nat → Bool) : PinOutcome × List Bool :=
  runWrites env resetWrites 0

/-- Syntax of the pin-access sequence an operation performs.  Every
constructor other than `done` is one fallible pin access, exactly the
accesses the source wraps in `.unwrap()`: `write` is a `set_low` /
`set_high` / `set_state` on any output line, `readBit` is a single access
that yields a data-line or select-line level (an `is_high` or `is_set_high`
call, or one awaited `wait_for_low` / `wait_for_high`), and `pollUntil l`
is a blocking polling loop (`while dout.is_high() {}`) that repeatedly reads
the data line until level `l` is observed.  Delays perform no pin access and
do not appear. -/
inductive Prog where
  | done
  | write (rest : Prog)
  | readBit (rest : Bool → Prog)
  | pollUntil (level : Bool) (rest : Prog)

/-- Outcome of running an operation against fallible pins: `ok` = completed,
returning a plain value; `err` = an error value handed back to the caller
(never produced, since the source unwraps every access); `panicked` = a
failing access panicked via `unwrap`; `incomplete` = the failure schedule
ended before the operation did (a model artifact outside every theorem
below). -/
inductive OpOutcome where
  | ok
  | err
  | panicked
  | incomplete
  deriving DecidableEq

/-- Runs a program against a schedule of pin-access results, one entry per
access in execution order: `none` = the access fails, `some b` = it succeeds
and (for a read) observes level `b`.  A failing access panics the way
`.unwrap()` does: the run stops there.  Returns the outcome and the number of
accesses attempted (successful ones plus, on a panic, the failing one). -/
def runProg : Prog → List (Option Bool) → OpOutcome × Nat
  | .done, _ => (.ok, 0)
  | .write _, [] => (.incomplete, 0)
  | .write _, none :: _ => (.panicked, 1)
  | .write rest, some _ :: s => ((runProg rest s).1, (runProg rest s).2 + 1)
  | .readBit _, [] => (.incomplete, 0)
  | .readBit _, none :: _ => (.panicked, 1)
  | .readBit rest, some b :: s => ((runProg (rest b) s).1, (runProg (rest b) s).2 + 1)
  | .pollUntil _ _, [] => (.incomplete, 0)
  | .pollUntil _ _, none :: _ => (.panicked, 1)
  | .pollUntil l rest, some b :: s =>
    if b = l then ((runProg rest s).1, (runProg rest s).2 + 1)
    else ((runProg (.pollUntil l rest) s).1, (runProg (.pollUntil l rest) s).2 + 1)

/-- The three pin accesses of one iteration of the 24-bit acquisition loop
(src/lib.rs lines 113-123 and 199-209): clock high (write), sample the data
line (read), clock low (write), iterated `n` times. -/
def bitAccessLoop : Nat → Prog → Prog
  | 0, rest => rest
  | n + 1, rest => .write (.readBit fun _ => .write (bitAccessLoop n rest))

/-- Pin accesses of `read_internal_blocking` (src/lib.rs lines 106-132),
continuing with `rest`: clock low, poll the data line until low, 24 bit
cycles, then the 25th pulse (two writes). -/
def readInternalBlockingProg (rest : Prog) : Prog :=
  .write (.pollUntil false (bitAccessLoop 24 (.write (.write rest))))

/-- Pin accesses of the suspending `read_internal` (src/lib.rs lines
192-218): as the blocking one, but the wait is a single awaited
`wait_for_low` access. -/
def readInternalAsyncProg (rest : Prog) : Prog :=
  .write (.readBit fun _ => bitAccessLoop 24 (.write (.write rest)))

/-- Pin accesses of `reset_blocking` (src/lib.rs lines 59-73): four
power-down writes. -/
def resetBlockingProg : Prog :=
  .write (.write (.write (.write .done)))

/-- Pin accesses of the suspending `reset` (src/lib.rs lines 147-161): the
same four power-down writes. -/
def resetAsyncProg : Prog :=
  .write (.write (.write (.write .done)))

/-- Pin accesses of `calibrate_offset_blocking` (src/lib.rs lines 77-88):
one full acquisition, the 26th pulse (two writes), then poll the data line
until low. -/
def calibrateOffsetBlockingProg : Prog :=
  readInternalBlockingProg (.write (.write (.pollUntil false .done)))

/-- Pin accesses of the suspending `calibrate_offset` (src/lib.rs lines
165-176): one full acquisition, the 26th pulse, then one awaited
`wait_for_high` access. -/
def calibrateOffsetAsyncProg : Prog :=
  readInternalAsyncProg (.write (.write (.readBit fun _ => .done)))

/-- Pin accesses of `enter_standby_blocking` (src/lib.rs lines 93-99):
clock low, poll the data line until low, clock high. -/
def enterStandbyBlockingProg : Prog :=
  .write (.pollUntil false (.write .done))

/-- Pin accesses of the suspending `enter_standby` (src/lib.rs lines
181-185): clock low, one awaited `wait_for_high` access, clock high. -/
def enterStandbyAsyncProg : Prog :=
  .write (.readBit fun _ => .write .done)

/-- Pin accesses of the ADS1232 `set_channel` (src/lib.rs lines 286-308):
read `is_set_high` of A0 and A1, and when the requested channel differs from
the derived one, write both select lines; the continuation receives the
derived old channel. -/
def setChannelProg1232 (channel : ADS1232Channel) (rest : ADS1232Channel → Prog) : Prog :=
  .readBit fun a0 => .readBit fun a1 =>
    let old := ads1232OldChannel a0 a1
    if channel != old then .write (.write (rest old)) else rest old

/-- Pin accesses of the ADS1232 `read_blocking` (src/lib.rs lines 322-339):
`set_channel`, then four discarded acquisitions when exactly one of old and
requested channel is `Temp`, then the returned acquisition. -/
def readBlocking1232Prog (channel : ADS1232Channel) : Prog :=
  setChannelProg1232 channel fun old =>
    if (old == .Temp) != (channel == .Temp) then
      readInternalBlockingProg (readInternalBlockingProg (readInternalBlockingProg
        (readInternalBlockingProg (readInternalBlockingProg .done))))
    else readInternalBlockingProg .done

/-- Pin accesses of the suspending ADS1232 `read` (src/lib.rs lines
363-384): as `read_blocking`, with the suspending acquisitions. -/
def readAsync1232Prog (channel : ADS1232Channel) : Prog :=
  setChannelProg1232 channel fun old =>
    if (old == .Temp) != (channel == .Temp) then
      readInternalAsyncProg (readInternalAsyncProg (readInternalAsyncProg
        (readInternalAsyncProg (readInternalAsyncProg .done))))
    else readInternalAsyncProg .done

/-- Pin accesses of the ADS1234 `set_channel` (src/lib.rs lines 430-454). -/
def setChannelProg1234 (channel : ADS1234Channel) (rest : Prog) : Prog :=
  .readBit fun a0 => .readBit fun a1 =>
    if ads1234OldChannel a0 a1 != channel then .write (.write rest) else rest

/-- Pin accesses of the ADS1234 `read_blocking` (src/lib.rs lines 463-472):
`set_channel` then one acquisition. -/
def readBlocking1234Prog (channel : ADS1234Channel) : Prog :=
  setChannelProg1234 channel (readInternalBlockingProg .done)

/-- Pin accesses of the suspending ADS1234 `read` (src/lib.rs lines
491-504). -/
def readAsync1234Prog (channel : ADS1234Channel) : Prog :=
  setChannelProg1234 channel (readInternalAsyncProg .done)

/-- The public operations of the driver, blocking and suspending. -/
inductive DriverOp where
  | resetBlockingOp
  | resetAsyncOp
  | calibrateOffsetBlockingOp
  | calibrateOffsetAsyncOp
  | enterStandbyBlockingOp
  | enterStandbyAsyncOp
  | readBlocking1232Op (channel : ADS1232Channel)
  | readAsync1232Op (channel : ADS1232Channel)
  | readBlocking1234Op (channel : ADS1234Channel)
  | readAsync1234Op (channel : ADS1234Channel)

/-- The pin-access program of each public operation. -/
def opProg : DriverOp → Prog
  | .resetBlockingOp => resetBlockingProg
  | .resetAsyncOp => resetAsyncProg
  | .calibrateOffsetBlockingOp => calibrateOffsetBlockingProg
  | .calibrateOffsetAsyncOp => calibrateOffsetAsyncProg
  | .enterStandbyBlockingOp => enterStandbyBlockingProg
  | .enterStandbyAsyncOp => enterStandbyAsyncProg
  | .readBlocking1232Op channel => readBlocking1232Prog channel
  | .readAsync1232Op channel => readAsync1232Prog channel
  | .readBlocking1234Op channel => readBlocking1234Prog channel
  | .readAsync1234Op channel => readAsync1234Prog channel

theorem runProg_no_err (p : Prog) (s : List (Option Bool)) :
    (runProg p s).1 ≠ OpOutcome.err := by
  induction s generalizing p with
  | nil => cases p <;> simp [runProg]
  | cons r s2 ih =>
    cases p with
    | done => simp [runProg]
    | write rest =>
      cases r with
      | none => simp [runProg]
      | some b => simpa [runProg] using ih rest
    | readBit rest =>
      cases r with
      | none => simp [runProg]
      | some b => simpa [runProg] using ih (rest b)
    | pollUntil l rest =>
      cases r with
      | none => simp [runProg]
      | some b =>
        by_cases hb : b = l
        · simpa [runProg, hb] using ih rest
        · simpa [runProg, hb] using ih (.pollUntil l rest)

theorem runProg_write_cons (rest : Prog) (b : Bool) (s : List (Option Bool)) :
    runProg (.write rest) (some b :: s) =
      ((runProg rest s).1, (runProg rest s).2 + 1) := rfl

theorem runProg_readBit_cons (rest : Bool → Prog) (b : Bool) (s : List (Option Bool)) :
    runProg (.readBit rest) (some b :: s) =
      ((runProg (rest b) s).1, (runProg (rest b) s).2 + 1) := rfl

theorem runProg_pollUntil_cons (l : Bool) (rest : Prog) (b : Bool) (s : List (Option Bool)) :
    runProg (.pollUntil l rest) (some b :: s) =
      if b = l then ((runProg rest s).1, (runProg rest s).2 + 1)
      else ((runProg (.pollUntil l rest) s).1, (runProg (.pollUntil l rest) s).2 + 1) := rfl

theorem runProg_first_failure (pre : List Bool) (p : Prog) (s : List (Option Bool)) :
    ((runProg p (pre.map some ++ none :: s)).1 = OpOutcome.ok ∧
      (runProg p (pre.map some ++ none :: s)).2 ≤ pre.length) ∨
    ((runProg p (pre.map some ++ none :: s)).1 = OpOutcome.panicked ∧
      (runProg p (pre.map some ++ none :: s)).2 ≤ pre.length + 1) := by
  induction pre generalizing p with
  | nil =>
    cases p with
    | done => left; exact ⟨rfl, Nat.le_refl 0⟩
    | write rest => right; exact ⟨rfl, Nat.le_refl 1⟩
    | readBit rest => right; exact ⟨rfl, Nat.le_refl 1⟩
    | pollUntil l rest => right; exact ⟨rfl, Nat.le_refl 1⟩
  | cons b pre2 ih =>
    cases p with
    | done => left; exact ⟨rfl, Nat.zero_le _⟩
    | write rest =>
      simp only [List.map_cons, List.cons_append, runProg_write_cons, List.length_cons]
      rcases ih rest with ⟨h1, h2⟩ | ⟨h1, h2⟩
      · left; exact ⟨h1, Nat.succ_le_succ h2⟩
      · right; exact ⟨h1, Nat.succ_le_succ h2⟩
    | readBit rest =>
      simp only [List.map_cons, List.cons_append, runProg_readBit_cons, List.length_cons]
      rcases ih (rest b) with ⟨h1, h2⟩ | ⟨h1, h2⟩
      · left; exact ⟨h1, Nat.succ_le_succ h2⟩
      · right; exact ⟨h1, Nat.succ_le_succ h2⟩
    | pollUntil l rest =>
      simp only [List.map_cons, List.cons_append, runProg_pollUntil_cons, List.length_cons]
      by_cases hb : b = l
      · rw [if_pos hb]
        rcases ih rest with ⟨h1, h2⟩ | ⟨h1, h2⟩
        · left; exact ⟨h1, Nat.succ_le_succ h2⟩
        · right; exact ⟨h1, Nat.succ_le_succ h2⟩
      · rw [if_neg hb]
        rcases ih (.pollUntil l rest) with ⟨h1, h2⟩ | ⟨h1, h2⟩
        · left; exact ⟨h1, Nat.succ_le_succ h2⟩
        · right; exact ⟨h1, Nat.succ_le_succ h2⟩

theorem runProg_failure_stops (pre : List Bool) (p : Prog) (s t : List (Option Bool)) :
    runProg p (pre.map some ++ none :: s) = runProg p (pre.map some ++ none :: t) := by
  induction pre generalizing p with
  | nil => cases p <;> rfl
  | cons b pre2 ih =>
    cases p with
    | done => rfl
    | write rest =>
      simp only [List.map_cons, List.cons_append, runProg_write_cons]
      rw [ih rest]
    | readBit rest =>
      simp only [List.map_cons, List.cons_append, runProg_readBit_cons]
      rw [ih (rest b)]
    | pollUntil l rest =>
      simp only [List.map_cons, List.cons_append, runProg_pollUntil_cons]
      by_cases hb : b = l
      · rw [if_pos hb, ih rest, if_pos hb]
      · rw [if_neg hb, ih (.pollUntil l rest), if_neg hb]

/-- C9 as amended: for every public operation (reset, calibrate-offset,
standby entry, and the per-variant reads, blocking and suspending) and every
point at which an underlying pin access fails, the failure aborts the
operation immediately as a panic through `unwrap`: with `pre.length`
successful accesses followed by a failing one, either the operation had
already completed within the successful accesses, or it panics having
attempted nothing beyond the failing access; the run is independent of
everything scheduled after the failure (no retry, no later pin access), and
no error value is ever handed to the caller. -/
theorem pin_failure_panics_no_error (op : DriverOp) (pre : List Bool)
    (s t : List (Option Bool)) :
    (((runProg (opProg op) (pre.map some ++ none :: s)).1 = OpOutcome.ok ∧
        (runProg (opProg op) (pre.map some ++ none :: s)).2 ≤ pre.length) ∨
      ((runProg (opProg op) (pre.map some ++ none :: s)).1 = OpOutcome.panicked ∧
        (runProg (opProg op) (pre.map some ++ none :: s)).2 ≤ pre.length + 1)) ∧
    runProg (opProg op) (pre.map some ++ none :: s) =
      runProg (opProg op) (pre.map some ++ none :: t) ∧
    (runProg (opProg op) (pre.map some ++ none :: s)).1 ≠ OpOutcome.err :=
  ⟨runProg_first_failure pre (opProg op) s,
   runProg_failure_stops pre (opProg op) s t,
   runProg_no_err (opProg op) (pre.map some ++ none :: s)⟩

/-- Concrete run of the failure model: reading the ADS1232 Temp channel with
select lines read back as AIN1 drives both select lines; when the second of
those writes fails, the run panics after attempting exactly 4 accesses (two
select-line reads, one successful write, the failing write). -/
theorem readBlocking1232_failure_example :
    runProg (readBlocking1232Prog .Temp) [some true, some false, some true, none] =
      (OpOutcome.panicked, 4) := by
  decide

/-- C9 counterexample: with the first power-down write failing, the reset
operation ends in a panic, not in an error result handed to the caller — the
source unwraps every pin access, so no operation ever returns an error
value. -/
theorem reset_pin_failure_not_error_result :
    (resetRun fun i => i != 0).1 = PinOutcome.panicked ∧
    (resetRun fun i => i != 0).1 ≠ PinOutcome.err := by
  decide
